import Mathlib

set_option linter.unusedVariables false
set_option maxRecDepth 100000

/-!
Shallow embedding of `scripts/push-to-anki.py`: a tool that converts quiz-card
JSON files into Anki notes and pushes them over the AnkiConnect HTTP API.

Pure string-building functions (the HTML renderers) are translated to Lean
string functions.  Python exceptions are modelled with `Except String`.
Network interaction (`urllib.request.urlopen`) is modelled by passing the
parsed JSON response (or a response oracle, for functions making several
calls) as an explicit argument; the batches/calls a function sends are
returned as an explicit trace so that claims about the calls issued can be
stated.
-/

/-- Model of a parsed JSON value, as produced by Python's `json.loads`.
Numbers are modelled as integers (the AnkiConnect payloads the script
consumes carry only integral numbers; floats are out of scope). -/
inductive Json where
  | null
  | bool (b : Bool)
  | num (n : Int)
  | str (s : String)
  | arr (xs : List Json)
  | obj (kvs : List (String × Json))

/-- Python truthiness (`bool(v)`) of a JSON value: `None`, `False`, `0`,
`""`, `[]` and `{}` are falsy, everything else is truthy. -/
def truthy : Json → Bool
  | .null => false
  | .bool b => b
  | .num n => n != 0
  | .str s => s != ""
  | .arr xs => !xs.isEmpty
  | .obj kvs => !kvs.isEmpty

/-- Whether a JSON value is `None` (Python `v is None`). -/
def Json.isNull : Json → Bool
  | .null => true
  | _ => false

/-- Whether a JSON value is a Python `list` (`isinstance(v, list)`). -/
def Json.isArr : Json → Bool
  | .arr _ => true
  | _ => false

/-- Dictionary lookup on a JSON object (`d[k]` before the KeyError check);
`none` when the key is absent or the value is not an object. -/
def jlookup (j : Json) (k : String) : Option Json :=
  match j with
  | .obj kvs => kvs.lookup k
  | _ => none

/-- Python `d.get(k)`: `None` when the key is absent. -/
def jget (j : Json) (k : String) : Json :=
  (jlookup j k).getD .null

/-- Python `d.get(k, default)`. -/
def jgetD (j : Json) (k : String) (d : Json) : Json :=
  (jlookup j k).getD d

/-- Python `len` on a JSON value; raises `TypeError` on scalars. -/
def pyLen : Json → Except String Nat
  | .arr xs => .ok xs.length
  | .str s => .ok s.length
  | .obj kvs => .ok kvs.length
  | _ => .error "TypeError: object has no len()"

/-- Abbreviated rendering of a JSON value used when interpolating it into an
exception message.  Scalars render as in Python; composite values are
abbreviated (no claim inspects the text of these messages, only whether the
exception is raised). -/
def pyStrShallow : Json → String
  | .null => "None"
  | .bool true => "True"
  | .bool false => "False"
  | .num n => toString n
  | .str s => s
  | .arr _ => "[...]"
  | .obj _ => "..."

/-- Model of a Python value stored in a card's `answer` field: the script
checks this field with `isinstance(..., list)` / `isinstance(..., str)` /
`isinstance(..., int)`, so the model distinguishes exactly those shapes
(`bool` is kept separate because Python `bool` is a subclass of `int`). -/
inductive PyVal where
  | str (s : String)
  | int (n : Int)
  | bool (b : Bool)
  | null
  | list (xs : List PyVal)

/-- Python `isinstance(v, str)`. -/
def PyVal.isStr : PyVal → Bool
  | .str _ => true
  | _ => false

/-- Python `isinstance(v, int)`; `True`/`False` are `int`s in Python. -/
def PyVal.isInt : PyVal → Bool
  | .int _ => true
  | .bool _ => true
  | _ => false

/-- Python `i in xs` for an enumeration index `i` compared against a list of
validated `int` entries (`==` in Python identifies `True` with `1` and
`False` with `0`; non-numbers compare unequal to an `int`). -/
def pyIntEq (i : Int) : PyVal → Bool
  | .int n => n == i
  | .bool b => (if b then (1 : Int) else 0) == i
  | _ => false

/-- Membership test `i in error_indices` used by the code-hotarea renderer. -/
def pyMem (i : Int) (xs : List PyVal) : Bool :=
  xs.any (pyIntEq i)

/-- Whether `pat` is a prefix of `l` (character lists). -/
def listStarts : List Char → List Char → Bool
  | [], _ => true
  | _ :: _, [] => false
  | p :: ps, x :: xs => p == x && listStarts ps xs

/-- Whether `pat` occurs as a contiguous sublist of `l`. -/
def listHasSub (pat : List Char) : List Char → Bool
  | [] => pat.isEmpty
  | x :: xs => listStarts pat (x :: xs) || listHasSub pat xs

/-- Python `pat in s` (substring containment). -/
def strContains (s pat : String) : Bool :=
  listHasSub pat.data s.data

/-- Python `s.startswith(pre)` for one prefix. -/
def pyStartsWith (s pre : String) : Bool :=
  listStarts pre.data s.data

/-- Python `s.lower()` (the script only relies on ASCII lowering, for the
word `select`). -/
def pyLower (s : String) : String :=
  ⟨s.data.map Char.toLower⟩

/-- Python width-2 decimal formatting of the line number (format spec `:2d`):
right-aligned, space-padded. -/
def fmt2d (n : Nat) : String :=
  if n < 10 then " " ++ toString n else toString n

/-- Python `chr(65 + i)`: the option letter A, B, C, ... -/
def letterOf (i : Nat) : String :=
  String.singleton (Char.ofNat (65 + i))

/-- Escaping of one character, following `html.escape(..., quote=True)`:
`&`, `<`, `>`, `"` and the single quote become entities.  (CPython performs
five sequential `str.replace` passes, `&` first; since no replacement output
contains a character that a later pass rewrites, this is equivalent to the
per-character map.) -/
def escCharL (c : Char) : List Char :=
  if c = '&' then "&amp;".data
  else if c = '<' then "&lt;".data
  else if c = '>' then "&gt;".data
  else if c = '"' then "&quot;".data
  else if c = '\x27' then "&#x27;".data
  else [c]

/-- Character-list version of `esc`. -/
def escL : List Char → List Char
  | [] => []
  | c :: cs => escCharL c ++ escL cs

/-- The script's `esc`: `html.escape(str(text), quote=True)`.  All call
sites pass strings, so the `str(...)` coercion is the identity here. -/
def esc (s : String) : String :=
  ⟨escL s.data⟩

/-- `ANKI_URL` constant (the fixed local AnkiConnect address). -/
def ANKI_URL : String := "http://127.0.0.1:8765"

/-- `MODEL_NAME` constant. -/
def MODEL_NAME : String := "AZ204 PREP Interactive"

/-- `BATCH_SIZE` constant. -/
def BATCH_SIZE : Nat := 10

/-- `REQUIRED_CARD_FIELDS` constant.  In the source this is a `set`; it is
modelled as a list in the literal's order (the set's iteration order is
unspecified in Python, and no claim depends on it). -/
def REQUIRED_CARD_FIELDS : List String :=
  ["question", "explanation", "keyPoints", "reference"]

/-- `MODEL_FIELDS` constant. -/
def MODEL_FIELDS : List String :=
  ["Question", "Type", "Options", "Answer", "Explanation", "KeyPoints",
   "Reference", "OrderItems", "CodeBlock"]

/-- `CONTAINER` style constant. -/
def CONTAINER : String :=
  "max-width: 600px; margin: 0 auto; font-size: 18px; "
  ++ "line-height: 1.8; padding: 15px; font-family: Arial, sans-serif; "
  ++ "color: #ffffff; background-color: #1a1a1a; border-radius: 8px;"

/-- `QUESTION_BOX` style constant. -/
def QUESTION_BOX : String :=
  "padding: 12px; background-color: #1e3a8a; "
  ++ "border: 2px solid #3b82f6; border-left: 4px solid #60a5fa; "
  ++ "border-radius: 4px; color: #ffffff;"

/-- `CORRECT_BOX` style constant. -/
def CORRECT_BOX : String :=
  "max-width: 600px; margin: 0 auto; "
  ++ "background-color: #14532d; border: 2px solid #22c55e; "
  ++ "padding: 15px; border-radius: 8px;"

/-- `EXPLANATION_BOX` style constant. -/
def EXPLANATION_BOX : String :=
  "max-width: 600px; margin: 20px auto; padding: 12px; "
  ++ "background-color: #1e3a8a; border: 2px solid #3b82f6; "
  ++ "border-radius: 6px; color: #ffffff;"

/-- `REFERENCE_BOX` style constant. -/
def REFERENCE_BOX : String :=
  "max-width: 600px; margin: 20px auto; padding: 8px; "
  ++ "background-color: #581c87; border: 2px solid #9333ea; "
  ++ "border-radius: 4px;"

/-- `CODE_BG` style constant. -/
def CODE_BG : String := "background-color: #0d1117;"

/-- The styled box wrapping every instructional hint in `wrap_question`
(the style literal is repeated verbatim in the source's three hint
branches; it is shared here). -/
def hint_box_pre : String :=
  "<div style=\"margin-top: 10px; padding: 6px 12px; "
  ++ "background-color: #854d0e; border: 1px solid #ca8a04; "
  ++ "border-radius: 4px; color: #fde047; font-size: 14px;\">"

/-- The `hint` local of `wrap_question` (lines 89-114): empty for
single-choice and for multi-select questions whose text already contains
"select" (case-insensitively); otherwise the type-specific hint box. -/
def wq_hint (text : String) (card_type : String) (correct_count : Nat) : String :=
  if card_type = "multi-select" && !(strContains (pyLower text) "select") then
    hint_box_pre
    ++ "Select " ++ toString correct_count ++ " answer"
    ++ (if correct_count > 1 then "s" else "") ++ "</div>"
  else if card_type = "ordering" then
    hint_box_pre ++ "Drag or use arrows to arrange in correct order" ++ "</div>"
  else if card_type = "code-hotarea" then
    hint_box_pre ++ "Click on the line(s) with errors" ++ "</div>"
  else ""

/-- Everything `wrap_question` emits before the escaped question text. -/
def wq_pre : String :=
  "<div style=\"" ++ CONTAINER ++ "\">"
  ++ "<strong style=\"color: #ffffff; font-size: 20px;\">Question:</strong>"
  ++ "<br><br>"
  ++ "<div style=\"" ++ QUESTION_BOX ++ "\">"

/-- `wrap_question`: the question box plus the type-specific hint. -/
def wrap_question (text : String) (card_type : String := "single-choice")
    (correct_count : Nat := 0) : String :=
  wq_pre ++ esc text ++ ("</div>" ++ wq_hint text card_type correct_count ++ "</div>")

/-- The constant part of a single-choice option item before the letter
(the onclick handler toggles an exclusive highlight). -/
def os_item_pre : String :=
  "<li style=\"margin-bottom: 12px; cursor: pointer; padding: 8px; "
  ++ "background-color: #2a2a2a; border-radius: 4px; "
  ++ "border: 2px solid #444;\" "
  ++ "onclick=\"var s=this.style; "
  ++ "if(s.borderColor===\x27rgb(59, 130, 246)\x27)\x7bs.borderColor=\x27#444\x27;s.backgroundColor=\x27#2a2a2a\x27;\x7d"
  ++ "else\x7bvar p=this.parentNode.children;for(var j=0;j<p.length;j++)\x7bp[j].style.borderColor=\x27#444\x27;p[j].style.backgroundColor=\x27#2a2a2a\x27;\x7d"
  ++ "s.borderColor=\x27#3b82f6\x27;s.backgroundColor=\x27#1e3a5a\x27;\x7d\">"

/-- One iteration of the `items` loop of `wrap_options_single`. -/
def os_item (i : Nat) (opt : String) : String :=
  os_item_pre ++ "<strong>" ++ letterOf i ++ ".</strong> " ++ (esc opt ++ "</li>")

/-- The `items` accumulator of `wrap_options_single`, starting at index `i`. -/
def os_items (i : Nat) : List String → String
  | [] => ""
  | opt :: rest => os_item i opt ++ os_items (i + 1) rest

/-- The list shell shared by the two options renderers. -/
def options_shell (items : String) : String :=
  "<div style=\"" ++ CONTAINER ++ "\">\n"
  ++ "<strong style=\"color: #ffffff; font-size: 18px;\">Options:</strong>\n"
  ++ "<ul style=\"margin-top: 10px; margin-left: 20px; "
  ++ "line-height: 1.8; color: #ffffff; list-style: none; padding-left: 0;\">\n"
  ++ items ++ "</ul>\n" ++ "</div>"

/-- `wrap_options_single`: clickable exclusive-highlight options. -/
def wrap_options_single (options : List String) : String :=
  options_shell (os_items 0 options)

/-- One iteration of the `items` loop of `wrap_options_multi` (checkbox
toggling an independent checked state). -/
def om_item (i : Nat) (opt : String) : String :=
  "<li style=\"margin-bottom: 12px; cursor: pointer; padding: 8px; "
  ++ "background-color: #2a2a2a; border-radius: 4px; border: 2px solid #444;\" "
  ++ "id=\"opt_" ++ toString i ++ "\" "
  ++ "onclick=\"var cb=document.getElementById(\x27cb_" ++ toString i ++ "\x27);cb.checked=!cb.checked;"
  ++ "var el=document.getElementById(\x27opt_" ++ toString i ++ "\x27);"
  ++ "if(cb.checked)\x7bel.style.borderColor=\x27#3b82f6\x27;el.style.backgroundColor=\x27#1e3a5a\x27;\x7d"
  ++ "else\x7bel.style.borderColor=\x27#444\x27;el.style.backgroundColor=\x27#2a2a2a\x27;\x7d\">"
  ++ "<input type=\"checkbox\" id=\"cb_" ++ toString i ++ "\" "
  ++ "style=\"margin-right: 8px; width: 18px; height: 18px; vertical-align: middle; pointer-events: none;\" "
  ++ "onclick=\"event.stopPropagation()\">"
  ++ "<strong>" ++ letterOf i ++ ".</strong> " ++ (esc opt ++ "</li>")

/-- The `items` accumulator of `wrap_options_multi`. -/
def om_items (i : Nat) : List String → String
  | [] => ""
  | opt :: rest => om_item i opt ++ om_items (i + 1) rest

/-- `wrap_options_multi`: checkbox options. -/
def wrap_options_multi (options : List String) : String :=
  options_shell (om_items 0 options)

/-- One iteration of the `li_items` loop of `wrap_order_items` (an item row
with up/down buttons). -/
def ord_item (i : Nat) (item : String) : String :=
  "<li id=\"ord_" ++ toString i ++ "\" style=\"margin-bottom: 8px; padding: 10px; "
  ++ "background-color: #2a2a2a; border-radius: 4px; border: 2px solid #444; "
  ++ "display: flex; align-items: center; gap: 10px;\">"
  ++ "<span style=\"min-width: 24px; color: #9ca3af;\">" ++ toString (i + 1) ++ ".</span>"
  ++ "<span style=\"flex: 1;\">" ++ (esc item ++ "</span>")
  ++ "<span style=\"display: flex; flex-direction: column; gap: 2px;\">"
  ++ "<button onclick=\"moveItem(\x27ord_" ++ toString i ++ "\x27,-1)\" "
  ++ "style=\"padding: 2px 8px; background: #374151; color: #fff; border: 1px solid #555; "
  ++ "border-radius: 3px; cursor: pointer; font-size: 14px;\">&#9650;</button>"
  ++ "<button onclick=\"moveItem(\x27ord_" ++ toString i ++ "\x27,1)\" "
  ++ "style=\"padding: 2px 8px; background: #374151; color: #fff; border: 1px solid #555; "
  ++ "border-radius: 3px; cursor: pointer; font-size: 14px;\">&#9660;</button>"
  ++ "</span>"
  ++ "</li>"

/-- The `li_items` accumulator of `wrap_order_items`. -/
def ord_items (i : Nat) : List String → String
  | [] => ""
  | item :: rest => ord_item i item ++ ord_items (i + 1) rest

/-- The `script` constant of `wrap_order_items` (move/renumber/shuffle
JavaScript, with a one-time shuffle scheduled after first render). -/
def order_script : String :=
  "<script>"
  ++ "function moveItem(elId, dir) \x7b"
  ++ "  var list = document.getElementById(\x27orderList\x27);"
  ++ "  var el = document.getElementById(elId);"
  ++ "  if (!el) return;"
  ++ "  var items = list.children;"
  ++ "  var curIdx = -1;"
  ++ "  for (var k = 0; k < items.length; k++) \x7b"
  ++ "    if (items[k] === el) \x7b curIdx = k; break; \x7d"
  ++ "  \x7d"
  ++ "  if (curIdx < 0) return;"
  ++ "  var target = curIdx + dir;"
  ++ "  if (target < 0 || target >= items.length) return;"
  ++ "  if (dir === -1) \x7b"
  ++ "    list.insertBefore(el, items[target]);"
  ++ "  \x7d else \x7b"
  ++ "    list.insertBefore(items[target], el);"
  ++ "  \x7d"
  ++ "  renumber();"
  ++ "\x7d"
  ++ "function renumber() \x7b"
  ++ "  var list = document.getElementById(\x27orderList\x27);"
  ++ "  var items = list.children;"
  ++ "  for (var i = 0; i < items.length; i++) \x7b"
  ++ "    items[i].querySelector(\x27span\x27).textContent = (i + 1) + \x27.\x27;"
  ++ "  \x7d"
  ++ "\x7d"
  ++ "function shuffleOrder() \x7b"
  ++ "  var list = document.getElementById(\x27orderList\x27);"
  ++ "  var items = Array.prototype.slice.call(list.children);"
  ++ "  for (var i = items.length - 1; i > 0; i--) \x7b"
  ++ "    var j = Math.floor(Math.random() * (i + 1));"
  ++ "    var temp = items[i]; items[i] = items[j]; items[j] = temp;"
  ++ "  \x7d"
  ++ "  for (var i = 0; i < items.length; i++) \x7b"
  ++ "    list.appendChild(items[i]);"
  ++ "  \x7d"
  ++ "  renumber();"
  ++ "\x7d"
  ++ "setTimeout(shuffleOrder, 0);"
  ++ "</script>"

/-- `wrap_order_items`: re-orderable list with up/down buttons and a
shuffle-on-load script. -/
def wrap_order_items (items : List String) : String :=
  "<div style=\"" ++ CONTAINER ++ "\">\n"
  ++ "<strong style=\"color: #ffffff; font-size: 18px;\">Arrange in order:</strong>\n"
  ++ "<ul id=\"orderList\" style=\"margin-top: 10px; list-style: none; padding-left: 0;\">\n"
  ++ ord_items 0 items ++ "</ul>\n"
  ++ order_script ++ "\n"
  ++ "</div>"

/-- One iteration of the `lines_html` loop of `wrap_code_hotarea`
(a clickable, highlightable code line with its 1-based number). -/
def ch_line (i : Nat) (line : String) : String :=
  "<div id=\"codeline_" ++ toString i ++ "\" "
  ++ "style=\"padding: 4px 10px; cursor: pointer; border-left: 3px solid transparent; "
  ++ "font-family: \x27Courier New\x27, monospace; font-size: 14px; "
  ++ "white-space: pre; color: #e6edf3;\" "
  ++ "onclick=\"var el=document.getElementById(\x27codeline_" ++ toString i ++ "\x27);"
  ++ "if(el.style.backgroundColor===\x27rgb(30, 58, 90)\x27)\x7bel.style.backgroundColor=\x27transparent\x27;el.style.borderLeftColor=\x27transparent\x27;\x7d"
  ++ "else\x7bel.style.backgroundColor=\x27#1e3a5a\x27;el.style.borderLeftColor=\x27#3b82f6\x27;\x7d\">"
  ++ "<span style=\"color: #6e7681; margin-right: 12px; user-select: none;\">" ++ fmt2d (i + 1) ++ "</span>"
  ++ (esc line ++ "</div>")

/-- The `lines_html` accumulator of `wrap_code_hotarea`. -/
def ch_lines (i : Nat) : List String → String
  | [] => ""
  | line :: rest => ch_line i line ++ ch_lines (i + 1) rest

/-- `wrap_code_hotarea`: the clickable code block. -/
def wrap_code_hotarea (code_lines : List String) (language : String := "text") : String :=
  "<div style=\"" ++ CONTAINER ++ "\">\n"
  ++ "<strong style=\"color: #ffffff; font-size: 18px;\">Code (" ++ esc language ++ "):</strong>\n"
  ++ "<div style=\"margin-top: 10px; " ++ CODE_BG ++ " border-radius: 6px; "
  ++ "padding: 12px 0; overflow-x: auto; border: 1px solid #30363d;\">\n"
  ++ ch_lines 0 code_lines
  ++ "</div>\n</div>"

/-- The index `ord(letter.upper()) - ord("A")` computed by the two answer
renderers, as an integer (negative for characters below `A`); `str.upper`
is modelled by the ASCII `Char.toUpper` (the script's letters are A-D). -/
def letterIdx (c : Char) : Int :=
  ((Char.toUpper c).toNat : Int) - 65

/-- The answer fragment of `wrap_answer_single` around a computed `display`
string. -/
def answer_single_shell (display : String) : String :=
  "<div style=\"" ++ CORRECT_BOX ++ "\">"
  ++ "<span style=\"color: #4ade80; font-weight: bold; font-size: 20px;\">"
  ++ "&#10004; Correct Answer:</span> "
  ++ "<strong style=\"font-size: 18px; color: #86efac;\">" ++ display ++ "</strong>"
  ++ "</div>"

/-- `wrap_answer_single`: looks up the answer letter's option and shows it.
`ord(letter.upper())` raises unless `letter` is a one-character string
(`AttributeError` if `letter` is not a string at all); `str.upper` is
modelled by the ASCII `Char.toUpper` (the script's letters are A-D).
The guarded index keeps out-of-range positions from touching the list. -/
def wrap_answer_single (letter : PyVal) (options : List String) : Except String String :=
  match letter with
  | .str s =>
    match s.data with
    | [c] =>
      let option_text : String :=
        if 0 ≤ letterIdx c ∧ letterIdx c < (options.length : Int) then
          options.getD (letterIdx c).toNat ""
        else ""
      let display : String :=
        if option_text = "" then s else s ++ " (" ++ (esc option_text ++ ")")
      .ok (answer_single_shell display)
    | _ => .error "TypeError: ord() expected a character"
  | _ => .error "AttributeError: object has no attribute upper"

/-- One entry of the `items` loop of `wrap_answer_multi`: the letter plus
its (possibly empty, when out of range) option text. -/
def am_item (s : String) (option_text : String) : String :=
  "<div style=\"margin: 4px 0; padding: 6px 10px; "
  ++ "background-color: #14532d; border: 1px solid #22c55e; "
  ++ "border-radius: 4px;\">"
  ++ "<strong style=\"color: #86efac;\">" ++ s ++ ".</strong> "
  ++ "<span style=\"color: #bbf7d0;\">" ++ (esc option_text ++ "</span></div>")

/-- The `items` loop of `wrap_answer_multi`; each letter goes through the
same `ord(letter.upper())` lookup as `wrap_answer_single` and can raise. -/
def am_items (options : List String) : List PyVal → Except String String
  | [] => .ok ""
  | letter :: rest =>
    match letter with
    | .str s =>
      match s.data with
      | [c] =>
        let option_text : String :=
          if 0 ≤ letterIdx c ∧ letterIdx c < (options.length : Int) then
            options.getD (letterIdx c).toNat ""
          else ""
        match am_items options rest with
        | .ok tail => .ok (am_item s option_text ++ tail)
        | .error e => .error e
      | _ => .error "TypeError: ord() expected a character"
    | _ => .error "AttributeError: object has no attribute upper"

/-- `wrap_answer_multi`: all correct options, in the order given. -/
def wrap_answer_multi (letters : List PyVal) (options : List String) :
    Except String String :=
  match am_items options letters with
  | .ok items =>
    .ok ("<div style=\"" ++ CORRECT_BOX ++ "\">"
      ++ "<span style=\"color: #4ade80; font-weight: bold; font-size: 20px;\">"
      ++ "&#10004; Correct Answers (" ++ toString letters.length ++ "):</span>"
      ++ "<div style=\"margin-top: 8px;\">" ++ items ++ "</div>"
      ++ "</div>")
  | .error e => .error e

/-- One entry of the `items` loop of `wrap_answer_ordering`. -/
def ao_item (i : Nat) (item : String) : String :=
  "<div style=\"margin: 4px 0; padding: 8px 12px; "
  ++ "background-color: #14532d; border: 1px solid #22c55e; "
  ++ "border-radius: 4px; display: flex; gap: 10px;\">"
  ++ "<strong style=\"color: #4ade80; min-width: 24px;\">" ++ toString (i + 1) ++ ".</strong>"
  ++ "<span style=\"color: #bbf7d0;\">" ++ (esc item ++ "</span></div>")

/-- The `items` accumulator of `wrap_answer_ordering`. -/
def ao_items (i : Nat) : List String → String
  | [] => ""
  | item :: rest => ao_item i item ++ ao_items (i + 1) rest

/-- `wrap_answer_ordering`: the items in canonical order, statically. -/
def wrap_answer_ordering (order_items : List String) : String :=
  "<div style=\"" ++ CORRECT_BOX ++ "\">"
  ++ "<span style=\"color: #4ade80; font-weight: bold; font-size: 20px;\">"
  ++ "&#10004; Correct Order:</span>"
  ++ "<div style=\"margin-top: 8px;\">" ++ ao_items 0 order_items ++ "</div>"
  ++ "</div>"

/-- One line of `wrap_answer_code_hotarea`, marked when its index is listed
in `error_indices`. -/
def ach_line (error_indices : List PyVal) (i : Nat) (line : String) : String :=
  let is_error := pyMem (i : Int) error_indices
  let bg := if is_error then "#3b1219" else "transparent"
  let border_color := if is_error then "#ef4444" else "transparent"
  let marker :=
    if is_error then
      " <span style=\"color: #ef4444; font-weight: bold;\">&larr; ERROR</span>"
    else ""
  "<div style=\"padding: 4px 10px; "
  ++ "background-color: " ++ bg ++ "; border-left: 3px solid " ++ border_color ++ "; "
  ++ "font-family: \x27Courier New\x27, monospace; font-size: 14px; "
  ++ "white-space: pre; color: #e6edf3;\">"
  ++ "<span style=\"color: #6e7681; margin-right: 12px;\">" ++ fmt2d (i + 1) ++ "</span>"
  ++ (esc line ++ marker)
  ++ "</div>"

/-- The `lines_html` accumulator of `wrap_answer_code_hotarea`. -/
def ach_lines (error_indices : List PyVal) (i : Nat) : List String → String
  | [] => ""
  | line :: rest => ach_line error_indices i line ++ ach_lines error_indices (i + 1) rest

/-- `wrap_answer_code_hotarea`: all lines re-rendered with the flagged
error lines marked.  (`language` is accepted and unused, as in the source.) -/
def wrap_answer_code_hotarea (code_lines : List String) (error_indices : List PyVal)
    (language : String := "text") : String :=
  let error_box_style :=
    ((CORRECT_BOX.replace "#14532d" "#1a1a1a").replace "#22c55e" "#ef4444")
  "<div style=\"" ++ error_box_style ++ "\">"
  ++ "<span style=\"color: #ef4444; font-weight: bold; font-size: 20px;\">"
  ++ "&#128681; Error Line" ++ (if error_indices.length > 1 then "s" else "") ++ ":</span>"
  ++ "<div style=\"margin-top: 10px; " ++ CODE_BG ++ " border-radius: 6px; "
  ++ "padding: 12px 0; overflow-x: auto; border: 1px solid #30363d;\">\n"
  ++ ach_lines error_indices 0 code_lines
  ++ "</div></div>"

/-- Everything `wrap_explanation` emits before the escaped text. -/
def expl_pre : String :=
  "<div style=\"" ++ EXPLANATION_BOX ++ "\">"
  ++ "<span style=\"color: #60a5fa; font-weight: bold; font-size: 20px;\">"
  ++ "&#128214; Explanation:</span><br><br>"

/-- `wrap_explanation`. -/
def wrap_explanation (text : String) : String :=
  expl_pre ++ esc text ++ "</div>"

/-- One entry of the `items` join of `wrap_key_points`. -/
def kp_item (p : String) : String :=
  "<li style=\"margin-bottom: 6px;\">" ++ (esc p ++ "</li>")

/-- The joined `items` of `wrap_key_points`. -/
def kp_items : List String → String
  | [] => ""
  | p :: rest => kp_item p ++ kp_items rest

/-- `wrap_key_points`. -/
def wrap_key_points (points : List String) : String :=
  "<div style=\"max-width: 600px; margin: 20px auto; color: #ffffff;\">\n"
  ++ "<span style=\"color: #fb923c; font-weight: bold; font-size: 20px;\">"
  ++ "&#128273; Key Points:</span>\n"
  ++ "<ul style=\"margin-top: 10px; margin-left: 20px; "
  ++ "line-height: 1.8; color: #ffffff;\">\n"
  ++ kp_items points ++ "</ul>\n"
  ++ "</div>"

/-- Everything `wrap_reference` emits before the (escaped) anchor target. -/
def ref_pre : String :=
  "<div style=\"" ++ REFERENCE_BOX ++ "\">"
  ++ "<span style=\"color: #c084fc; font-weight: bold; font-size: 18px;\">"
  ++ "&#128279; Reference:</span><br>"
  ++ "<a href=\""

/-- The fragment of `wrap_reference` between the two uses of the escaped
URL (as `href` and as link text). -/
def ref_mid : String :=
  "\" style=\"color: #a78bfa; text-decoration: underline;\" "
  ++ "target=\"_blank\">"

/-- `wrap_reference`: URLs not starting with `http://` or `https://` are
replaced by the placeholder `#` before escaping and embedding. -/
def wrap_reference (url : String) : String :=
  let url := if !(pyStartsWith url "http://" || pyStartsWith url "https://") then "#" else url
  let safe_url := esc url
  ref_pre ++ safe_url ++ (ref_mid ++ safe_url ++ "</a></div>")

/-- A raw card record as read from a deck file.  Every key may be absent
(`none`); a present key holds a value of the JSON-schema type the script
consumes for it.  `answer` is kept as a `PyVal` because its shape is what
`validate_card` checks; the other fields are used only at their schema
types. -/
structure RawCard where
  id : Option String := none
  type : Option String := none
  question : Option String := none
  options : Option (List String) := none
  answer : Option PyVal := none
  orderItems : Option (List String) := none
  codeLines : Option (List String) := none
  language : Option String := none
  explanation : Option String := none
  keyPoints : Option (List String) := none
  reference : Option String := none
  tags : Option (List String) := none

/-- The upload unit built by `card_to_note`: the `fields` dictionary is an
association list in the source's insertion order. -/
structure Note where
  deckName : String
  modelName : String
  fields : List (String × String)
  tags : List String

/-- `REQUIRED_CARD_FIELDS - card.keys()`: the required fields the card is
missing, in `REQUIRED_CARD_FIELDS` order (the Python set difference has
unspecified iteration order; no claim depends on the order). -/
def requiredMissing (card : RawCard) : List String :=
  (if card.question.isSome then [] else ["question"])
  ++ (if card.explanation.isSome then [] else ["explanation"])
  ++ (if card.keyPoints.isSome then [] else ["keyPoints"])
  ++ (if card.reference.isSome then [] else ["reference"])

/-- Rendering of the missing-field set inside the f-string
the missing-fields error message, element by element
in the model's canonical order. -/
def pySetReprGo : List String → String
  | [] => ""
  | [f] => "\x27" ++ (f ++ "\x27")
  | f :: rest => "\x27" ++ (f ++ ("\x27, " ++ pySetReprGo rest))

/-- Python `str` of a non-empty set of strings (braces written out). -/
def pySetRepr (l : List String) : String :=
  "\x7b" ++ (pySetReprGo l ++ "\x7d")

/-- The message of the missing-required-fields `ValueError`. -/
def missingMsg (card : RawCard) : String :=
  "Card " ++ (card.id.getD "unknown" ++ (" missing required fields: "
    ++ pySetRepr (requiredMissing card)))

/-- `validate_card`: checks the four required fields are present, then the
`answer` shape against the declared `type` (nothing is checked for
`single-choice` or unknown types). -/
def validate_card (card : RawCard) : Except String Unit :=
  let card_id := card.id.getD "unknown"
  if requiredMissing card ≠ [] then
    .error (missingMsg card)
  else
    let card_type := card.type.getD "single-choice"
    let answer := card.answer
    if card_type = "multi-select" then
      if (match answer with
          | some (.list xs) => xs.all PyVal.isStr
          | _ => false) then .ok ()
      else .error ("Card " ++ (card_id ++ ": multi-select answer must be a list of strings"))
    else if card_type = "ordering" then
      if (match answer with
          | some (.list xs) => xs.all PyVal.isInt
          | _ => false) then .ok ()
      else .error ("Card " ++ (card_id ++ ": ordering answer must be a list of ints"))
    else if card_type = "code-hotarea" then
      if (match answer with
          | some (.list xs) => xs.all PyVal.isInt
          | _ => false) then .ok ()
      else .error ("Card " ++ (card_id ++ ": code-hotarea answer must be a list of ints"))
    else .ok ()

/-- `len(answer) if isinstance(answer, list) else 0`. -/
def correctCount : PyVal → Nat
  | .list xs => xs.length
  | _ => 0

/-- The final `return` of `card_to_note`: the fixed 9-field dictionary
(insertion order as in the source) around the four type-specific fragments
plus the shared back-side blocks. -/
def finish_note (deck_name : String) (card : RawCard) (card_type : String)
    (question_html options_html answer_html order_html code_html : String) :
    Except String Note :=
  match card.explanation, card.keyPoints, card.reference with
  | some expl, some kps, some ref =>
    .ok { deckName := deck_name
          modelName := MODEL_NAME
          fields := [("Type", card_type),
                     ("Question", question_html),
                     ("Options", options_html),
                     ("Answer", answer_html),
                     ("Explanation", wrap_explanation expl),
                     ("KeyPoints", wrap_key_points kps),
                     ("Reference", wrap_reference ref),
                     ("OrderItems", order_html),
                     ("CodeBlock", code_html)]
          tags := card.tags.getD [] }
  | _, _, _ => .error "KeyError: explanation, keyPoints or reference"

/-- `card_to_note`: validates, renders the type-specific fragments and
assembles the note.  The two `.error "unreachable..."` arms for a non-list
`answer` in the multi-select and code-hotarea branches cannot fire after a
successful `validate_card` (which guarantees a list there). -/
def card_to_note (card : RawCard) (deck_name : String) : Except String Note :=
  match validate_card card with
  | .error e => .error e
  | .ok _ =>
    let card_type := card.type.getD "single-choice"
    let options := card.options.getD []
    let order_items := card.orderItems.getD []
    let code_lines := card.codeLines.getD []
    let language := card.language.getD "text"
    let answer := card.answer.getD (.str "")
    let correct_count := correctCount answer
    match card.question with
    | none => .error "KeyError: question"
    | some q =>
      let question_html := wrap_question q card_type correct_count
      if card_type = "single-choice" then
        match wrap_answer_single answer options with
        | .error e => .error e
        | .ok answer_html =>
          finish_note deck_name card card_type question_html
            (wrap_options_single options) answer_html "" ""
      else if card_type = "multi-select" then
        match answer with
        | .list letters =>
          match wrap_answer_multi letters options with
          | .error e => .error e
          | .ok answer_html =>
            finish_note deck_name card card_type question_html
              (wrap_options_multi options) answer_html "" ""
        | _ => .error "unreachable: validate_card guarantees a list"
      else if card_type = "ordering" then
        finish_note deck_name card card_type question_html
          "" (wrap_answer_ordering order_items) (wrap_order_items order_items) ""
      else if card_type = "code-hotarea" then
        match answer with
        | .list idxs =>
          finish_note deck_name card card_type question_html
            "" (wrap_answer_code_hotarea code_lines idxs language) ""
            (wrap_code_hotarea code_lines language)
        | _ => .error "unreachable: validate_card guarantees a list"
      else .error ("Unknown card type: " ++ card_type)

/-- `anki_request` after the HTTP exchange, as a function of the parsed
JSON response: raise `RuntimeError` when the response's `error` entry is
truthy, otherwise return `result["result"]` (a `KeyError` if absent). -/
def anki_request (resp : Json) : Except String Json :=
  if truthy (jget resp "error") then
    .error ("AnkiConnect error: " ++ pyStrShallow (jget resp "error"))
  else
    match jlookup resp "result" with
    | some v => .ok v
    | none => .error "KeyError: result"

/-- `anki_request_addnotes` as a function of the parsed JSON response:
raise only when the `error` entry is truthy and not a list; return
`result.get("result", [])`. -/
def anki_request_addnotes (resp : Json) : Except String Json :=
  let error := jget resp "error"
  if truthy error && !error.isArr then
    .error ("AnkiConnect error: " ++ pyStrShallow error)
  else
    .ok (jgetD resp "result" (.arr []))

/-- Iterating `for r in results` over the value `addNotes` returned.  The
AnkiConnect contract returns a list of per-note slots; iterating any other
shape (a Python `str` or `dict` would iterate characters or keys) is
outside the model and mapped to an error. -/
def asSlots : Json → Except String (List Json)
  | .arr xs => .ok xs
  | _ => .error "TypeError: result is not iterable"

/-- Number of `None` slots in a batch result (`r is None`: duplicates). -/
def countNull (slots : List Json) : Nat :=
  (slots.filter Json.isNull).length

/-- Number of non-`None` slots in a batch result (created notes). -/
def countNonNull (slots : List Json) : Nat :=
  (slots.filter (fun s => !s.isNull)).length

/-- The slots a given addNotes response yields on the successful path
(`[]` when the call would raise instead). -/
def respSlots (resp : Json) : List Json :=
  match anki_request_addnotes resp with
  | .error _ => []
  | .ok res =>
    match res with
    | .arr xs => xs
    | _ => []

/-- Fuel-indexed batch splitting: `chunksOfFuel n fuel l` cuts `l` into
`n`-sized slices as long as fuel remains.  Structural recursion on the fuel
keeps the function kernel-computable; `chunksOf` supplies `l.length` fuel,
which always suffices. -/
def chunksOfFuel (n : Nat) : Nat → List α → List (List α)
  | 0, _ => []
  | _ + 1, [] => []
  | fuel + 1, x :: xs => (x :: xs.take (n - 1)) :: chunksOfFuel n fuel (xs.drop (n - 1))

/-- The batches `notes[i : i + n]` visited by `range(0, len(notes), n)`. -/
def chunksOf (n : Nat) (l : List α) : List (List α) :=
  chunksOfFuel n l.length l

/-- The loop of `push_notes` over the prepared batches, threading the
`created`/`duplicates` counters.  The first component is the trace of
batches actually submitted to `addNotes` (a batch whose call raises is
still in the trace — the request was sent — but the loop stops there). -/
def push_notes_go (oracle : List Note → Json) (created duplicates : Nat) :
    List (List Note) → List (List Note) × Except String (Nat × Nat)
  | [] => ([], .ok (created, duplicates))
  | b :: bs =>
    match anki_request_addnotes (oracle b) with
    | .error e => ([b], .error e)
    | .ok res =>
      match asSlots res with
      | .error e => ([b], .error e)
      | .ok slots =>
        let rest := push_notes_go oracle (created + countNonNull slots)
          (duplicates + countNull slots) bs
        (b :: rest.1, rest.2)

/-- `push_notes`: split into `BATCH_SIZE` batches, one `addNotes` call per
batch (`oracle` provides each call's parsed response), count `None` slots
as duplicates and the rest as created. -/
def push_notes (oracle : List Note → Json) (notes : List Note) :
    List (List Note) × Except String (Nat × Nat) :=
  push_notes_go oracle 0 0 (chunksOf BATCH_SIZE notes)

/-- One AnkiConnect invocation: the action name and its params. -/
structure AnkiCall where
  action : String
  params : List (String × Json)

/-- The `findNotes` call of `delete_deck_cards` for a deck name. -/
def findCall (deck_name : String) : AnkiCall :=
  ⟨"findNotes", [("query", .str ("deck:\"" ++ deck_name ++ "\""))]⟩

/-- The `deleteNotes` call of `delete_deck_cards`. -/
def deleteCall (note_ids : Json) : AnkiCall :=
  ⟨"deleteNotes", [("notes", note_ids)]⟩

/-- `delete_deck_cards`: find the deck's notes; if the result is truthy
(a non-empty list) delete them; return how many were found.  The first
component is the trace of AnkiConnect calls issued. -/
def delete_deck_cards (server : AnkiCall → Json) (deck_name : String) :
    List AnkiCall × Except String Nat :=
  match anki_request (server (findCall deck_name)) with
  | .error e => ([findCall deck_name], .error e)
  | .ok note_ids =>
    if truthy note_ids then
      match anki_request (server (deleteCall note_ids)) with
      | .error e => ([findCall deck_name, deleteCall note_ids], .error e)
      | .ok _ =>
        match pyLen note_ids with
        | .ok n => ([findCall deck_name, deleteCall note_ids], .ok n)
        | .error e => ([findCall deck_name, deleteCall note_ids], .error e)
    else
      match pyLen note_ids with
      | .ok n => ([findCall deck_name], .ok n)
      | .error e => ([findCall deck_name], .error e)

/-- The list comprehension `[card_to_note(c, deck_name) for c in cards]`:
all notes are built (or the first failure raises) before anything is
pushed. -/
def build_notes (deck_name : String) : List RawCard → Except String (List Note)
  | [] => .ok []
  | c :: cs =>
    match card_to_note c deck_name with
    | .error e => .error e
    | .ok n =>
      match build_notes deck_name cs with
      | .error e => .error e
      | .ok ns => .ok (n :: ns)

/-- The per-file core of `process_file` after the JSON is loaded: build all
notes, then push them.  (The `ensure_deck` call, the type-count summary and
the printing are side effects with no bearing on the claims; the first
component is the trace of `addNotes` batches submitted.) -/
def process_cards (oracle : List Note → Json) (deck_name : String)
    (cards : List RawCard) : List (List Note) × Except String (Nat × Nat) :=
  match build_notes deck_name cards with
  | .error e => ([], .error e)
  | .ok notes => push_notes oracle notes

/-- Whether an `Except` result is a success (models "does not raise"). -/
def isOkE : Except String α → Bool
  | .ok _ => true
  | .error _ => false

/-- Transcribes claim C1's wording "the parsed response's `error` field is
a non-null scalar": a scalar (string, number or boolean) that is not
`null`.  This definition follows the claim, not the source, and exists
only to be compared against the source's behaviour. -/
def errNonNullScalar : Json → Bool
  | .null => false
  | .bool _ => true
  | .num _ => true
  | .str _ => true
  | .arr _ => false
  | .obj _ => false

/-- Whether a string contains one of the four characters claim C3 names. -/
def hasSpecialChar (s : String) : Bool :=
  s.data.any (fun c => c == '<' || c == '>' || c == '&' || c == '"')

/-- Whether the character list right after an `&` spells one of the five
entities `esc` produces. -/
def entityAfterAmp (cs : List Char) : Bool :=
  listStarts "amp;".data cs || listStarts "lt;".data cs
    || listStarts "gt;".data cs || listStarts "quot;".data cs
    || listStarts "#x27;".data cs

/-- Character-list scan for "only escaped entities, never raw characters":
no raw `<`, `>` or `"` anywhere, and every `&` begins an escaped entity. -/
def escapedOnlyL : List Char → Bool
  | [] => true
  | c :: cs =>
    if c = '<' then false
    else if c = '>' then false
    else if c = '"' then false
    else if c = '&' then entityAfterAmp cs && escapedOnlyL cs
    else escapedOnlyL cs

/-- String version of `escapedOnlyL`. -/
def escapedOnly (s : String) : Bool :=
  escapedOnlyL s.data

/-- The constant the key-points renderer emits before an item's escaped
text (shell head plus item head). -/
def wkp_pre : String :=
  "<div style=\"max-width: 600px; margin: 20px auto; color: #ffffff;\">\n"
  ++ "<span style=\"color: #fb923c; font-weight: bold; font-size: 20px;\">"
  ++ "&#128273; Key Points:</span>\n"
  ++ "<ul style=\"margin-top: 10px; margin-left: 20px; "
  ++ "line-height: 1.8; color: #ffffff;\">\n"
  ++ "<li style=\"margin-bottom: 6px;\">"

/-- The constant after a sole key-point item's escaped text. -/
def wkp_suf : String :=
  "</li>" ++ ("</ul>\n" ++ "</div>")

/-- The constant the single-choice options renderer emits before the sole
option's escaped text. -/
def wos_pre : String :=
  "<div style=\"" ++ CONTAINER ++ "\">\n"
  ++ "<strong style=\"color: #ffffff; font-size: 18px;\">Options:</strong>\n"
  ++ "<ul style=\"margin-top: 10px; margin-left: 20px; "
  ++ "line-height: 1.8; color: #ffffff; list-style: none; padding-left: 0;\">\n"
  ++ os_item_pre ++ "<strong>" ++ letterOf 0 ++ ".</strong> "

/-- The constant after a sole option's escaped text (both renderers). -/
def wos_suf : String :=
  "</li>" ++ ("</ul>\n" ++ "</div>")

/-- The constant the multi-select options renderer emits before the sole
option's escaped text. -/
def wom_pre : String :=
  "<div style=\"" ++ CONTAINER ++ "\">\n"
  ++ "<strong style=\"color: #ffffff; font-size: 18px;\">Options:</strong>\n"
  ++ "<ul style=\"margin-top: 10px; margin-left: 20px; "
  ++ "line-height: 1.8; color: #ffffff; list-style: none; padding-left: 0;\">\n"
  ++ "<li style=\"margin-bottom: 12px; cursor: pointer; padding: 8px; "
  ++ "background-color: #2a2a2a; border-radius: 4px; border: 2px solid #444;\" "
  ++ "id=\"opt_" ++ toString 0 ++ "\" "
  ++ "onclick=\"var cb=document.getElementById(\x27cb_" ++ toString 0 ++ "\x27);cb.checked=!cb.checked;"
  ++ "var el=document.getElementById(\x27opt_" ++ toString 0 ++ "\x27);"
  ++ "if(cb.checked)\x7bel.style.borderColor=\x27#3b82f6\x27;el.style.backgroundColor=\x27#1e3a5a\x27;\x7d"
  ++ "else\x7bel.style.borderColor=\x27#444\x27;el.style.backgroundColor=\x27#2a2a2a\x27;\x7d\">"
  ++ "<input type=\"checkbox\" id=\"cb_" ++ toString 0 ++ "\" "
  ++ "style=\"margin-right: 8px; width: 18px; height: 18px; vertical-align: middle; pointer-events: none;\" "
  ++ "onclick=\"event.stopPropagation()\">"
  ++ "<strong>" ++ letterOf 0 ++ ".</strong> "

/-- The constant the code-hotarea renderer emits before a sole code line's
escaped text (for the default language `text`). -/
def wch_pre : String :=
  "<div style=\"" ++ CONTAINER ++ "\">\n"
  ++ "<strong style=\"color: #ffffff; font-size: 18px;\">Code (" ++ esc "text" ++ "):</strong>\n"
  ++ "<div style=\"margin-top: 10px; " ++ CODE_BG ++ " border-radius: 6px; "
  ++ "padding: 12px 0; overflow-x: auto; border: 1px solid #30363d;\">\n"
  ++ "<div id=\"codeline_" ++ toString 0 ++ "\" "
  ++ "style=\"padding: 4px 10px; cursor: pointer; border-left: 3px solid transparent; "
  ++ "font-family: \x27Courier New\x27, monospace; font-size: 14px; "
  ++ "white-space: pre; color: #e6edf3;\" "
  ++ "onclick=\"var el=document.getElementById(\x27codeline_" ++ toString 0 ++ "\x27);"
  ++ "if(el.style.backgroundColor===\x27rgb(30, 58, 90)\x27)\x7bel.style.backgroundColor=\x27transparent\x27;el.style.borderLeftColor=\x27transparent\x27;\x7d"
  ++ "else\x7bel.style.backgroundColor=\x27#1e3a5a\x27;el.style.borderLeftColor=\x27#3b82f6\x27;\x7d\">"
  ++ "<span style=\"color: #6e7681; margin-right: 12px; user-select: none;\">" ++ fmt2d 1 ++ "</span>"

/-- The constant after the sole code line's escaped text. -/
def wch_suf : String :=
  "</div>" ++ ("</div>\n</div>")

/-- A concrete response whose `error` field is a non-empty list, as
AnkiConnect produces for a batch with per-note failures. -/
def respListErr : Json :=
  .obj [("result", .arr [.null]), ("error", .arr [.str "cannot create note because it is a duplicate"])]

/-- A concrete well-formed success response (for the C1 witness). -/
def respVersion : Json :=
  .obj [("result", .num 6), ("error", .null)]

/-- A minimal note value used by concrete push fixtures. -/
def note0 : Note :=
  { deckName := "Deck", modelName := MODEL_NAME, fields := [], tags := [] }

/-- Twenty-five copies of `note0` (the batch-size example of claim C2). -/
def notes25 : List Note :=
  List.replicate 25 note0

/-- A response oracle that reports every submitted note as a duplicate:
`error` is `null` and `result` is one `null` slot per note. -/
def oracleAllDup : List Note → Json :=
  fun b => .obj [("error", .null), ("result", .arr (b.map fun _ => Json.null))]

/-- A response oracle that never answers usefully (`json.loads` of the
bare token `null`); the C8 witness never reaches it. -/
def oracleNull : List Note → Json :=
  fun _ => .null

/-- A concrete valid single-choice card (for the C6 witness). -/
def cardSC : RawCard :=
  { id := some "w1", question := some "q", options := some ["o"],
    answer := some (.str "A"), explanation := some "e",
    keyPoints := some ["k"], reference := some "https://learn.microsoft.com" }

/-- The note `card_to_note` builds from `cardSC`. -/
def noteSC : Note :=
  (card_to_note cardSC "D").toOption.getD { deckName := "", modelName := "", fields := [], tags := [] }

/-- A concrete card missing the required `keyPoints` field (C8 witness). -/
def cardMissing : RawCard :=
  { id := some "c1", question := some "q", explanation := some "e",
    reference := some "r" }

/-- A concrete card with all required fields but an unrecognised `type`
(C9 witness). -/
def cardUnknown : RawCard :=
  { id := some "u1", type := some "mystery", question := some "q",
    explanation := some "e", keyPoints := some ["k"], reference := some "r" }

/-- A concrete card carrying only an unrecognised `type` (C9
counterexample: its validation fails on the missing required fields). -/
def cardUnknownBare : RawCard :=
  { type := some "mystery" }

/-- A server for the C7 witness: `findNotes` finds nothing, and every
response is well-formed with a `null` error. -/
def serverEmptyDeck : AnkiCall → Json :=
  fun _ => .obj [("error", .null), ("result", .arr [])]

theorem strData_append (a b : String) : (a ++ b).data = a.data ++ b.data := by
  cases a
  cases b
  rfl

theorem strApp_assoc (a b c : String) : a ++ b ++ c = a ++ (b ++ c) := by
  cases a
  cases b
  cases c
  exact congrArg String.mk (List.append_assoc _ _ _)

theorem strApp_right_nil (a : String) : a ++ "" = a := by
  cases a
  exact congrArg String.mk (List.append_nil _)

theorem strApp_ne_empty_left (a b : String) (h : a ≠ "") : a ++ b ≠ "" := by
  cases a with
  | mk l1 =>
    cases b with
    | mk l2 =>
      intro hc
      have h2 : l1 ++ l2 = [] := congrArg String.data hc
      rcases List.append_eq_nil.mp h2 with ⟨h3, _⟩
      exact h (by rw [h3])

theorem listStarts_self_append (p r : List Char) : listStarts p (p ++ r) = true := by
  induction p with
  | nil => rfl
  | cons c cs ih => simp [listStarts, ih]

theorem listHasSub_of_starts (pat l : List Char) (h : listStarts pat l = true) :
    listHasSub pat l = true := by
  cases l with
  | nil =>
    cases pat with
    | nil => rfl
    | cons c cs => simp [listStarts] at h
  | cons x xs => simp [listHasSub, h]

theorem listHasSub_cons (pat l : List Char) (x : Char)
    (h : listHasSub pat l = true) : listHasSub pat (x :: l) = true := by
  simp [listHasSub, h]

theorem listHasSub_append_left (pat l : List Char) (u : List Char)
    (h : listHasSub pat l = true) : listHasSub pat (u ++ l) = true := by
  induction u with
  | nil => exact h
  | cons x xs ih => exact listHasSub_cons pat (xs ++ l) x ih

theorem strContains_middle (a s b : String) : strContains (a ++ (s ++ b)) s = true := by
  show listHasSub s.data (a ++ (s ++ b)).data = true
  rw [strData_append, strData_append]
  exact listHasSub_append_left s.data (s.data ++ b.data) a.data
    (listHasSub_of_starts _ _ (listStarts_self_append _ _))

theorem escapedOnlyL_escCharL (c : Char) (rest : List Char)
    (ih : escapedOnlyL rest = true) : escapedOnlyL (escCharL c ++ rest) = true := by
  by_cases h1 : c = '&'
  · subst h1
    exact ih
  by_cases h2 : c = '<'
  · subst h2
    exact ih
  by_cases h3 : c = '>'
  · subst h3
    exact ih
  by_cases h4 : c = '"'
  · subst h4
    exact ih
  by_cases h5 : c = '\x27'
  · subst h5
    exact ih
  simp only [escCharL, if_neg h1, if_neg h2, if_neg h3, if_neg h4, if_neg h5,
    List.singleton_append]
  simp only [escapedOnlyL, if_neg h2, if_neg h3, if_neg h4, if_neg h1]
  exact ih

theorem escapedOnlyL_escL (l : List Char) : escapedOnlyL (escL l) = true := by
  induction l with
  | nil => rfl
  | cons c cs ih => exact escapedOnlyL_escCharL c (escL cs) ih

theorem escapedOnly_esc (s : String) : escapedOnly (esc s) = true :=
  escapedOnlyL_escL s.data

/-- C3: for every user-supplied string containing `<`, `>`, `&` or `"`,
each renderer that embeds user text (question text, option text,
explanation, key points, code lines) embeds it exactly through `esc`, whose
output carries no raw `<`, `>` or `"` and only entity-forming `&`s: the
embedded text holds only the escaped entities, never the raw characters. -/
theorem C3_escaping (s : String) (card_type : String) (correct_count : Nat)
    (hs : hasSpecialChar s = true) :
    escapedOnly (esc s) = true
    ∧ wrap_question s card_type correct_count
        = wq_pre ++ esc s ++ ("</div>" ++ wq_hint s card_type correct_count ++ "</div>")
    ∧ wrap_explanation s = expl_pre ++ esc s ++ "</div>"
    ∧ wrap_key_points [s] = wkp_pre ++ (esc s ++ wkp_suf)
    ∧ wrap_options_single [s] = wos_pre ++ (esc s ++ wos_suf)
    ∧ wrap_options_multi [s] = wom_pre ++ (esc s ++ wos_suf)
    ∧ wrap_code_hotarea [s] "text" = wch_pre ++ (esc s ++ wch_suf) := by
  refine ⟨escapedOnly_esc s, rfl, rfl, ?_, ?_, ?_, ?_⟩
  · simp only [wrap_key_points, kp_items, kp_item, wkp_pre, wkp_suf,
      strApp_assoc, strApp_right_nil]
  · simp only [wrap_options_single, options_shell, os_items, os_item, os_item_pre,
      wos_pre, wos_suf, strApp_assoc, strApp_right_nil]
  · simp only [wrap_options_multi, options_shell, om_items, om_item,
      wom_pre, wos_suf, strApp_assoc, strApp_right_nil]
  · simp only [wrap_code_hotarea, ch_lines, ch_line, wch_pre, wch_suf,
      strApp_assoc, strApp_right_nil]

/-- C3 witness: a concrete string with special characters satisfies the
hypothesis, and its escape passes the scan. -/
theorem C3_escaping_witness :
    hasSpecialChar "a<b>&\"c" = true ∧ escapedOnly (esc "a<b>&\"c") = true :=
  ⟨by decide, (C3_escaping "a<b>&\"c" "single-choice" 0 (by decide)).1⟩

/-- C4 counterexample: a multi-select question with one correct answer
(text not mentioning "select") gets the hint "Select 1 answer", not the
claimed reading "Select 1 answers" — the plural `s` is dropped for N = 1. -/
theorem C4_counterexample :
    strContains (wrap_question "q" "multi-select" 1) "Select 1 answers" = false
    ∧ strContains (wrap_question "q" "multi-select" 1) "Select 1 answer" = true
    ∧ wq_hint "q" "multi-select" 1 ≠ "" := by
  refine ⟨by decide, by decide, by decide⟩

/-- C4 (amended): the hint is omitted for every single-choice card and for
every multi-select card whose text contains "select" case-insensitively;
it is present for multi-select cards not mentioning "select" (reading
"Select N answers", with "answer" unpluralised when N is at most 1), for
every ordering card and for every code-hotarea card. -/
theorem C4_hint (text : String) (correct_count : Nat) :
    wq_hint text "single-choice" correct_count = ""
    ∧ (strContains (pyLower text) "select" = true →
        wq_hint text "multi-select" correct_count = "")
    ∧ (strContains (pyLower text) "select" = false →
        wq_hint text "multi-select" correct_count
          = hint_box_pre ++ "Select " ++ toString correct_count ++ " answer"
            ++ (if correct_count > 1 then "s" else "") ++ "</div>"
        ∧ wq_hint text "multi-select" correct_count ≠ "")
    ∧ wq_hint text "ordering" correct_count
        = hint_box_pre ++ "Drag or use arrows to arrange in correct order" ++ "</div>"
    ∧ wq_hint text "ordering" correct_count ≠ ""
    ∧ wq_hint text "code-hotarea" correct_count
        = hint_box_pre ++ "Click on the line(s) with errors" ++ "</div>"
    ∧ wq_hint text "code-hotarea" correct_count ≠ ""
    ∧ (∀ t, wrap_question text t correct_count
        = wq_pre ++ esc text ++ ("</div>" ++ wq_hint text t correct_count ++ "</div>")) := by
  refine ⟨rfl, ?_, ?_, rfl, ?_, rfl, ?_, fun t => rfl⟩
  · intro hsel
    simp [wq_hint, hsel]
  · intro hsel
    have heq : wq_hint text "multi-select" correct_count
        = hint_box_pre ++ "Select " ++ toString correct_count ++ " answer"
          ++ (if correct_count > 1 then "s" else "") ++ "</div>" := by
      simp [wq_hint, hsel]
    refine ⟨heq, ?_⟩
    rw [heq]
    repeat apply strApp_ne_empty_left
    decide
  · show hint_box_pre ++ "Drag or use arrows to arrange in correct order" ++ "</div>" ≠ ""
    decide
  · show hint_box_pre ++ "Click on the line(s) with errors" ++ "</div>" ≠ ""
    decide

/-- C4 witness: a concrete multi-select question not mentioning "select"
gets the "Select 2 answers" hint. -/
theorem C4_hint_witness :
    strContains (pyLower "Which two?") "select" = false
    ∧ wq_hint "Which two?" "multi-select" 2
        = hint_box_pre ++ "Select " ++ toString 2 ++ " answer"
          ++ (if 2 > 1 then "s" else "") ++ "</div>"
    ∧ wq_hint "Which two?" "multi-select" 2 ≠ "" :=
  ⟨by decide, ((C4_hint "Which two?" 2).2.2.1 (by decide)).1,
    ((C4_hint "Which two?" 2).2.2.1 (by decide)).2⟩

/-- C5: a reference URL not starting with `http://` or `https://` is
replaced by the placeholder `#` before rendering — the output is the fixed
placeholder fragment, independent of the URL, so the raw value never
reaches the anchor; a URL with a proper prefix is embedded (escaped) as
both the anchor target and the link text. -/
theorem C5_reference (u : String) :
    ((pyStartsWith u "http://" || pyStartsWith u "https://") = false →
      wrap_reference u = wrap_reference "#"
      ∧ wrap_reference u = ref_pre ++ "#" ++ (ref_mid ++ "#" ++ "</a></div>"))
    ∧ ((pyStartsWith u "http://" || pyStartsWith u "https://") = true →
      wrap_reference u = ref_pre ++ esc u ++ (ref_mid ++ esc u ++ "</a></div>")) := by
  constructor
  · intro h
    constructor
    · simp [wrap_reference, h]
    · simp [wrap_reference, h]
      rfl
  · intro h
    simp [wrap_reference, h]

/-- C5 witness: the dangerous URL of the spec's example is rendered as the
placeholder fragment. -/
theorem C5_reference_witness :
    (pyStartsWith "javascript:alert(1)" "http://"
      || pyStartsWith "javascript:alert(1)" "https://") = false
    ∧ wrap_reference "javascript:alert(1)" = wrap_reference "#" :=
  ⟨by decide, ((C5_reference "javascript:alert(1)").1 (by decide)).1⟩

/-- C1 counterexample: on a response whose `error` field is a non-empty
list — not a scalar — `anki_request` does raise, contradicting the claim
that the single request primitive raises only on a non-null scalar `error`
and that a list-shaped `error` does not raise. -/
theorem C1_counterexample :
    isOkE (anki_request respListErr) = false
    ∧ (jget respListErr "error").isArr = true
    ∧ errNonNullScalar (jget respListErr "error") = false := by
  decide

/-- C1 (amended): `anki_request` raises exactly when the response's
`error` field is truthy — including a non-empty list — provided the
response carries a `result` key (as every AnkiConnect response does);
`anki_request_addnotes` is the primitive that exempts list-shaped errors,
raising exactly when the `error` field is truthy and not a list (so a
falsy scalar such as the empty string never raises in either). -/
theorem C1_error_raising (resp : Json) :
    ((jlookup resp "result").isSome = true →
      (isOkE (anki_request resp) = false ↔ truthy (jget resp "error") = true))
    ∧ (isOkE (anki_request_addnotes resp) = false
        ↔ (truthy (jget resp "error") && !(jget resp "error").isArr) = true) := by
  constructor
  · intro hres
    by_cases ht : truthy (jget resp "error") = true
    · simp [anki_request, isOkE, ht]
    · cases hlk : jlookup resp "result" with
      | none => rw [hlk] at hres; simp at hres
      | some v => simp [anki_request, isOkE, ht, hlk]
  · cases ht : (truthy (jget resp "error") && !(jget resp "error").isArr) with
    | false => simp [anki_request_addnotes, isOkE, ht]
    | true => simp [anki_request_addnotes, isOkE, ht]

/-- C1 witness: a concrete well-formed success response satisfies the
`result`-key hypothesis and neither side of the equivalence holds. -/
theorem C1_error_raising_witness :
    (jlookup respVersion "result").isSome = true
    ∧ (isOkE (anki_request respVersion) = false ↔ truthy (jget respVersion "error") = true) :=
  ⟨by decide, (C1_error_raising respVersion).1 (by decide)⟩

theorem finish_note_fields (deck : String) (card : RawCard) (t q o a og c : String)
    (note : Note) (h : finish_note deck card t q o a og c = .ok note) :
    note.fields.map Prod.fst
      = ["Type", "Question", "Options", "Answer", "Explanation", "KeyPoints",
         "Reference", "OrderItems", "CodeBlock"]
    ∧ note.fields.lookup "Options" = some o
    ∧ note.fields.lookup "OrderItems" = some og
    ∧ note.fields.lookup "CodeBlock" = some c := by
  unfold finish_note at h
  split at h
  · simp only [Except.ok.injEq] at h
    subst h
    exact ⟨rfl, rfl, rfl, rfl⟩
  · simp at h

/-- C6: any note successfully built from a card has a field map whose keys
are exactly the 9 model fields, the resolved card type is one of the four
known types, and the fields not applicable to that type are the empty
string (OrderItems and CodeBlock for single-choice and multi-select,
Options and CodeBlock for ordering, Options and OrderItems for
code-hotarea). -/
theorem C6_note_fields (card : RawCard) (deck : String) (note : Note)
    (h : card_to_note card deck = .ok note) :
    (note.fields.map Prod.fst).Perm MODEL_FIELDS
    ∧ (card.type.getD "single-choice" = "single-choice"
       ∨ card.type.getD "single-choice" = "multi-select"
       ∨ card.type.getD "single-choice" = "ordering"
       ∨ card.type.getD "single-choice" = "code-hotarea")
    ∧ ((card.type.getD "single-choice" = "single-choice"
        ∨ card.type.getD "single-choice" = "multi-select") →
        note.fields.lookup "OrderItems" = some ""
        ∧ note.fields.lookup "CodeBlock" = some "")
    ∧ (card.type.getD "single-choice" = "ordering" →
        note.fields.lookup "Options" = some ""
        ∧ note.fields.lookup "CodeBlock" = some "")
    ∧ (card.type.getD "single-choice" = "code-hotarea" →
        note.fields.lookup "Options" = some ""
        ∧ note.fields.lookup "OrderItems" = some "") := by
  cases hv : validate_card card with
  | error e => simp [card_to_note, hv] at h
  | ok u =>
    cases hq : card.question with
    | none => simp [card_to_note, hv, hq] at h
    | some q =>
      by_cases h1 : card.type.getD "single-choice" = "single-choice"
      · cases ha : wrap_answer_single (card.answer.getD (.str "")) (card.options.getD []) with
        | error e => simp [card_to_note, hv, hq, h1, ha] at h
        | ok ah =>
          simp only [card_to_note, hv, hq, h1, ha, if_pos] at h
          obtain ⟨hkeys, ho, hog, hc⟩ := finish_note_fields _ _ _ _ _ _ _ _ _ h
          refine ⟨by rw [hkeys]; decide, Or.inl h1, fun _ => ⟨hog, hc⟩, ?_, ?_⟩
          · intro h2; exact absurd (h1.symm.trans h2) (by decide)
          · intro h2; exact absurd (h1.symm.trans h2) (by decide)
      · by_cases h2 : card.type.getD "single-choice" = "multi-select"
        · cases han : card.answer.getD (.str "") with
          | str s => simp [card_to_note, hv, hq, h1, h2, han] at h
          | int n => simp [card_to_note, hv, hq, h1, h2, han] at h
          | bool b => simp [card_to_note, hv, hq, h1, h2, han] at h
          | null => simp [card_to_note, hv, hq, h1, h2, han] at h
          | list letters =>
            cases ha : wrap_answer_multi letters (card.options.getD []) with
            | error e => simp [card_to_note, hv, hq, h1, h2, han, ha] at h
            | ok ah =>
              simp only [card_to_note, hv, hq, h1, h2, han, ha, if_pos, if_neg] at h
              obtain ⟨hkeys, ho, hog, hc⟩ := finish_note_fields _ _ _ _ _ _ _ _ _ h
              refine ⟨by rw [hkeys]; decide, Or.inr (Or.inl h2), fun _ => ⟨hog, hc⟩, ?_, ?_⟩
              · intro h3; exact absurd (h2.symm.trans h3) (by decide)
              · intro h3; exact absurd (h2.symm.trans h3) (by decide)
        · by_cases h3 : card.type.getD "single-choice" = "ordering"
          · simp only [card_to_note, hv, hq, h1, h2, h3, if_pos, if_neg] at h
            obtain ⟨hkeys, ho, hog, hc⟩ := finish_note_fields _ _ _ _ _ _ _ _ _ h
            refine ⟨by rw [hkeys]; decide, Or.inr (Or.inr (Or.inl h3)), ?_, fun _ => ⟨ho, hc⟩, ?_⟩
            · intro h4
              rcases h4 with h4 | h4
              · exact absurd (h3.symm.trans h4) (by decide)
              · exact absurd (h3.symm.trans h4) (by decide)
            · intro h4; exact absurd (h3.symm.trans h4) (by decide)
          · by_cases h4 : card.type.getD "single-choice" = "code-hotarea"
            · cases han : card.answer.getD (.str "") with
              | str s => simp [card_to_note, hv, hq, h1, h2, h3, h4, han] at h
              | int n => simp [card_to_note, hv, hq, h1, h2, h3, h4, han] at h
              | bool b => simp [card_to_note, hv, hq, h1, h2, h3, h4, han] at h
              | null => simp [card_to_note, hv, hq, h1, h2, h3, h4, han] at h
              | list idxs =>
                simp only [card_to_note, hv, hq, h1, h2, h3, h4, han, if_pos, if_neg] at h
                obtain ⟨hkeys, ho, hog, hc⟩ := finish_note_fields _ _ _ _ _ _ _ _ _ h
                refine ⟨by rw [hkeys]; decide, Or.inr (Or.inr (Or.inr h4)),
                  ?_, ?_, fun _ => ⟨ho, hog⟩⟩
                · intro h5
                  rcases h5 with h5 | h5
                  · exact absurd (h4.symm.trans h5) (by decide)
                  · exact absurd (h4.symm.trans h5) (by decide)
                · intro h5; exact absurd (h4.symm.trans h5) (by decide)
            · simp [card_to_note, hv, hq, h1, h2, h3, h4] at h

/-- C6 witness: a concrete valid single-choice card builds a note whose
field keys are a permutation of the 9 model fields. -/
theorem C6_note_fields_witness :
    card_to_note cardSC "D" = .ok noteSC
    ∧ (noteSC.fields.map Prod.fst).Perm MODEL_FIELDS :=
  ⟨rfl, (C6_note_fields cardSC "D" noteSC rfl).1⟩

/-- C7: when `findNotes` returns an empty id list, `delete_deck_cards`
returns a count of 0 and issues no `deleteNotes` call; when it returns a
non-empty list, exactly one `deleteNotes` call carrying those ids is
issued, and if a count is returned it equals the number of ids found. -/
theorem C7_delete_deck (server : AnkiCall → Json) (deck : String) (ids : List Json)
    (hfind : anki_request (server (findCall deck)) = .ok (.arr ids)) :
    (ids = [] → delete_deck_cards server deck = ([findCall deck], .ok 0))
    ∧ (ids ≠ [] →
        (delete_deck_cards server deck).1 = [findCall deck, deleteCall (.arr ids)]
        ∧ ∀ n, (delete_deck_cards server deck).2 = .ok n → n = ids.length) := by
  constructor
  · intro hnil
    subst hnil
    simp [delete_deck_cards, hfind, truthy, pyLen]
  · intro hne
    have htr : truthy (.arr ids) = true := by
      cases ids with
      | nil => exact absurd rfl hne
      | cons x xs => rfl
    cases hdel : anki_request (server (deleteCall (.arr ids))) with
    | error e =>
      refine ⟨?_, ?_⟩ <;> simp [delete_deck_cards, hfind, htr, hdel]
    | ok v =>
      refine ⟨?_, ?_⟩ <;> simp [delete_deck_cards, hfind, htr, hdel, pyLen]

/-- C7 witness: a deck with zero matching notes yields count 0 and only
the `findNotes` call. -/
theorem C7_delete_deck_witness :
    anki_request (serverEmptyDeck (findCall "AZ-204")) = .ok (.arr [])
    ∧ delete_deck_cards serverEmptyDeck "AZ-204" = ([findCall "AZ-204"], .ok 0) :=
  ⟨rfl, (C7_delete_deck serverEmptyDeck "AZ-204" [] rfl).1 rfl⟩

theorem pySetReprGo_mem (f : String) :
    ∀ l : List String, f ∈ l → ∃ a b : String, pySetReprGo l = a ++ (f ++ b) := by
  intro l
  induction l with
  | nil => intro h; simp at h
  | cons x rest ih =>
    intro hmem
    cases rest with
    | nil =>
      have hfx : f = x := List.mem_singleton.mp hmem
      subst hfx
      exact ⟨"\x27", "\x27", rfl⟩
    | cons y rest2 =>
      cases hmem with
      | head => exact ⟨"\x27", "\x27, " ++ pySetReprGo (y :: rest2), rfl⟩
      | tail b0 hmem2 =>
        obtain ⟨a, b, hab⟩ := ih hmem2
        refine ⟨"\x27" ++ (x ++ ("\x27, " ++ a)), b, ?_⟩
        show "\x27" ++ (x ++ ("\x27, " ++ pySetReprGo (y :: rest2))) = _
        rw [hab]
        simp [strApp_assoc]

theorem missingMsg_contains (card : RawCard) :
    strContains (missingMsg card) (card.id.getD "unknown") = true
    ∧ ∀ f ∈ requiredMissing card, strContains (missingMsg card) f = true := by
  constructor
  · exact strContains_middle "Card " (card.id.getD "unknown") _
  · intro f hf
    obtain ⟨a, b, hab⟩ := pySetReprGo_mem f (requiredMissing card) hf
    have hshape : missingMsg card
        = ("Card " ++ (card.id.getD "unknown"
            ++ (" missing required fields: " ++ ("\x7b" ++ a))))
          ++ (f ++ (b ++ "\x7d")) := by
      simp [missingMsg, pySetRepr, hab, strApp_assoc]
    rw [hshape]
    exact strContains_middle _ f _

theorem build_notes_error_of_mem (deck : String) (card : RawCard)
    (hcard : ∀ n, card_to_note card deck ≠ .ok n) :
    ∀ cards : List RawCard, card ∈ cards → ∃ e, build_notes deck cards = .error e := by
  intro cards
  induction cards with
  | nil => intro h; simp at h
  | cons x rest ih =>
    intro hmem
    cases hmem with
    | head =>
      cases hx : card_to_note card deck with
      | error e => exact ⟨e, by simp [build_notes, hx]⟩
      | ok n => exact absurd hx (hcard n)
    | tail b0 hmem2 =>
      obtain ⟨e, he⟩ := ih hmem2
      cases hx : card_to_note x deck with
      | error e2 => exact ⟨e2, by simp [build_notes, hx]⟩
      | ok n => exact ⟨e, by simp [build_notes, hx, he]⟩

/-- C8: a card missing any of the four required fields makes
`validate_card` fail with an error naming the card's id (`unknown` when
absent) and every missing field; when such a card is in a file's card
list, note building fails before any batch is submitted, so the file
contributes zero uploaded notes (no `addNotes` call is made). -/
theorem C8_required_fields (card : RawCard) (h : requiredMissing card ≠ []) :
    validate_card card = .error (missingMsg card)
    ∧ strContains (missingMsg card) (card.id.getD "unknown") = true
    ∧ (∀ f ∈ requiredMissing card, strContains (missingMsg card) f = true)
    ∧ ∀ (oracle : List Note → Json) (deck : String) (cards : List RawCard),
        card ∈ cards →
        (process_cards oracle deck cards).1 = []
        ∧ ∃ e, (process_cards oracle deck cards).2 = .error e := by
  have hval : validate_card card = .error (missingMsg card) := by
    unfold validate_card
    rw [if_pos h]
  refine ⟨hval, (missingMsg_contains card).1, (missingMsg_contains card).2, ?_⟩
  intro oracle deck cards hmem
  have hcard : ∀ n, card_to_note card deck ≠ .ok n := by
    intro n hc
    simp [card_to_note, hval] at hc
  obtain ⟨e, he⟩ := build_notes_error_of_mem deck card hcard cards hmem
  exact ⟨by simp [process_cards, he], e, by simp [process_cards, he]⟩

/-- C8 witness: a concrete card with id `c1` missing `keyPoints` fails
validation naming both, and a file holding it submits no batch. -/
theorem C8_required_fields_witness :
    requiredMissing cardMissing ≠ []
    ∧ strContains (missingMsg cardMissing) "c1" = true
    ∧ strContains (missingMsg cardMissing) "keyPoints" = true
    ∧ (process_cards oracleNull "D" [cardMissing]).1 = [] :=
  ⟨by decide,
   (C8_required_fields cardMissing (by decide)).2.1,
   (C8_required_fields cardMissing (by decide)).2.2.1 "keyPoints" (by decide),
   ((C8_required_fields cardMissing (by decide)).2.2.2 oracleNull "D" [cardMissing]
     (List.Mem.head _)).1⟩

/-- C9 counterexample: a card whose `type` is the unknown `mystery` but
which also misses the required fields refutes the claim as stated —
its validation does not succeed. -/
theorem C9_counterexample :
    cardUnknownBare.type = some "mystery"
    ∧ ("mystery" ≠ "single-choice" ∧ "mystery" ≠ "multi-select"
       ∧ "mystery" ≠ "ordering" ∧ "mystery" ≠ "code-hotarea")
    ∧ isOkE (validate_card cardUnknownBare) = false := by
  decide

/-- C9 (amended): for every card carrying the four required fields whose
`type` is present but none of the four known types, `validate_card`
succeeds (the answer-shape checks are skipped) yet `card_to_note` raises
a `ValueError` naming the unknown type, so no note is built. -/
theorem C9_unknown_type (card : RawCard) (t : String) (ht : card.type = some t)
    (h1 : t ≠ "single-choice") (h2 : t ≠ "multi-select")
    (h3 : t ≠ "ordering") (h4 : t ≠ "code-hotarea")
    (hreq : requiredMissing card = []) :
    validate_card card = .ok ()
    ∧ ∀ deck, card_to_note card deck = .error ("Unknown card type: " ++ t) := by
  have hqex : ∃ q, card.question = some q := by
    cases hq2 : card.question with
    | none => exfalso; simp [requiredMissing, hq2] at hreq
    | some q => exact ⟨q, rfl⟩
  obtain ⟨q, hq⟩ := hqex
  have hval : validate_card card = .ok () := by
    unfold validate_card
    rw [if_neg (by simp [hreq])]
    simp [ht, h2, h3, h4]
  refine ⟨hval, fun deck => ?_⟩
  simp [card_to_note, hval, hq, ht, h1, h2, h3, h4]

/-- C9 witness: a concrete card with required fields and type `mystery`
validates but builds no note. -/
theorem C9_unknown_type_witness :
    requiredMissing cardUnknown = []
    ∧ validate_card cardUnknown = .ok ()
    ∧ card_to_note cardUnknown "D" = .error ("Unknown card type: " ++ "mystery") :=
  ⟨rfl,
   (C9_unknown_type cardUnknown "mystery" rfl (by decide) (by decide) (by decide)
     (by decide) rfl).1,
   (C9_unknown_type cardUnknown "mystery" rfl (by decide) (by decide) (by decide)
     (by decide) rfl).2 "D"⟩

/-- C10 counterexample: for answer letter `A` with an options list holding
one empty string, the position is in range, yet the fragment displays the
bare letter `A` and not the letter together with the (empty) escaped
option text — the claimed in-range format does not hold for empty option
text, because the Python code tests the option's truthiness. -/
theorem C10_counterexample :
    wrap_answer_single (.str "A") [""] = .ok (answer_single_shell "A")
    ∧ (0 : Int) ≤ letterIdx 'A'
    ∧ letterIdx 'A' < (([""] : List String).length : Int)
    ∧ answer_single_shell "A" ≠ answer_single_shell ("A (" ++ (esc "" ++ ")")) := by
  refine ⟨rfl, by decide, by decide, by decide⟩

theorem singleton_data (c : Char) : (String.singleton c).data = [c] :=
  rfl

/-- C10 (amended): for a one-character answer letter, an out-of-range
position (uppercase code minus `A`) touches no list element and yields
the bare-letter fragment; an in-range position yields the letter together
with the escaped option text when that text is non-empty, and the bare
letter when the option text is the empty string. -/
theorem C10_answer_single (c : Char) (options : List String) :
    (¬(0 ≤ letterIdx c ∧ letterIdx c < (options.length : Int)) →
      wrap_answer_single (.str (String.singleton c)) options
        = .ok (answer_single_shell (String.singleton c)))
    ∧ ((0 ≤ letterIdx c ∧ letterIdx c < (options.length : Int)) →
        (options.getD (letterIdx c).toNat "" = "" →
          wrap_answer_single (.str (String.singleton c)) options
            = .ok (answer_single_shell (String.singleton c)))
        ∧ (options.getD (letterIdx c).toNat "" ≠ "" →
          wrap_answer_single (.str (String.singleton c)) options
            = .ok (answer_single_shell
                (String.singleton c ++ " ("
                  ++ (esc (options.getD (letterIdx c).toNat "") ++ ")"))))) := by
  constructor
  · intro hout
    simp only [wrap_answer_single, singleton_data]
    rw [if_neg hout]
    rfl
  · intro hin
    constructor
    · intro hemp
      simp only [wrap_answer_single, singleton_data]
      rw [if_pos hin, if_pos hemp]
    · intro hne
      simp only [wrap_answer_single, singleton_data]
      rw [if_pos hin, if_neg hne]

/-- C10 witness: letter `B` against options `x, y, z` is in range with a
non-empty option and shows `B (y)`. -/
theorem C10_answer_single_witness :
    (0 ≤ letterIdx 'B' ∧ letterIdx 'B' < ((["x", "y", "z"] : List String).length : Int))
    ∧ wrap_answer_single (.str (String.singleton 'B')) ["x", "y", "z"]
        = .ok (answer_single_shell (String.singleton 'B' ++ " (" ++ (esc "y" ++ ")"))) := by
  refine ⟨by decide, ?_⟩
  exact ((C10_answer_single 'B' ["x", "y", "z"]).2 (by decide)).2 (by decide)

theorem chunksOfFuel_nil (n fuel : Nat) : chunksOfFuel n fuel ([] : List α) = [] := by
  cases fuel <;> rfl

theorem chunksOfFuel_flatten (n : Nat) :
    ∀ (fuel : Nat) (l : List α), l.length ≤ fuel → (chunksOfFuel n fuel l).flatten = l := by
  intro fuel
  induction fuel with
  | zero =>
    intro l hl
    have hnil : l = [] := List.length_eq_zero.mp (Nat.le_zero.mp hl)
    subst hnil
    rfl
  | succ f ih =>
    intro l hl
    cases l with
    | nil => rfl
    | cons x xs =>
      have hxs : xs.length ≤ f := by simp [List.length_cons] at hl; omega
      show ((x :: xs.take (n - 1)) :: chunksOfFuel n f (xs.drop (n - 1))).flatten = x :: xs
      rw [List.flatten_cons, ih (xs.drop (n - 1)) (by rw [List.length_drop]; omega)]
      simp [List.take_append_drop]

theorem chunksOfFuel_mem :
    ∀ (fuel : Nat) (l : List α), l.length ≤ fuel →
      ∀ b ∈ chunksOfFuel 10 fuel l, 0 < b.length ∧ b.length ≤ 10 := by
  intro fuel
  induction fuel with
  | zero => intro l hl b hb; cases l <;> simp [chunksOfFuel] at hb
  | succ f ih =>
    intro l hl b hb
    cases l with
    | nil => simp [chunksOfFuel] at hb
    | cons x xs =>
      have hxs : xs.length ≤ f := by simp [List.length_cons] at hl; omega
      rw [show chunksOfFuel 10 (f + 1) (x :: xs)
          = (x :: xs.take 9) :: chunksOfFuel 10 f (xs.drop 9) from rfl] at hb
      rcases List.mem_cons.mp hb with hb1 | hb2
      · subst hb1
        simp [List.length_take]
      · exact ih (xs.drop 9) (by rw [List.length_drop]; omega) b hb2

theorem chunksOfFuel_dropLast :
    ∀ (fuel : Nat) (l : List α), l.length ≤ fuel →
      ∀ b ∈ (chunksOfFuel 10 fuel l).dropLast, b.length = 10 := by
  intro fuel
  induction fuel with
  | zero => intro l hl b hb; cases l <;> simp [chunksOfFuel] at hb
  | succ f ih =>
    intro l hl b hb
    cases l with
    | nil => simp [chunksOfFuel] at hb
    | cons x xs =>
      have hxs : xs.length ≤ f := by simp [List.length_cons] at hl; omega
      rw [show chunksOfFuel 10 (f + 1) (x :: xs)
          = (x :: xs.take 9) :: chunksOfFuel 10 f (xs.drop 9) from rfl] at hb
      cases hcs : chunksOfFuel 10 f (xs.drop 9) with
      | nil => rw [hcs] at hb; simp at hb
      | cons cfirst cs =>
        rw [hcs, List.dropLast_cons₂] at hb
        rcases List.mem_cons.mp hb with hb1 | hb2
        · subst hb1
          have hne : xs.drop 9 ≠ [] := by
            intro hnil
            rw [hnil, chunksOfFuel_nil] at hcs
            exact List.cons_ne_nil cfirst cs hcs.symm
          have h9 : 9 < xs.length := by
            by_contra hle
            exact hne (List.drop_eq_nil_iff.mpr (by omega))
          simp [List.length_take]
          omega
        · have hih := ih (xs.drop 9) (by rw [List.length_drop]; omega)
          rw [hcs] at hih
          exact hih b hb2

theorem chunks25 (l : List α) (h : l.length = 25) :
    (chunksOf 10 l).map List.length = [10, 10, 5] := by
  unfold chunksOf
  rw [h]
  have e1 : chunksOfFuel 10 25 l = l.take 10 :: chunksOfFuel 10 24 (l.drop 10) := by
    cases l with
    | nil => simp at h
    | cons x xs => rfl
  have hd1 : (l.drop 10).length = 15 := by rw [List.length_drop, h]
  have e2 : chunksOfFuel 10 24 (l.drop 10)
      = (l.drop 10).take 10 :: chunksOfFuel 10 23 ((l.drop 10).drop 10) := by
    cases hc : l.drop 10 with
    | nil => rw [hc] at hd1; simp at hd1
    | cons x xs => rfl
  have hd2 : ((l.drop 10).drop 10).length = 5 := by rw [List.length_drop, hd1]
  have e3 : chunksOfFuel 10 23 ((l.drop 10).drop 10)
      = ((l.drop 10).drop 10).take 10
        :: chunksOfFuel 10 22 (((l.drop 10).drop 10).drop 10) := by
    cases hc : (l.drop 10).drop 10 with
    | nil => rw [hc] at hd2; simp at hd2
    | cons x xs => rfl
  have hd3 : ((l.drop 10).drop 10).drop 10 = [] :=
    List.length_eq_zero.mp (by rw [List.length_drop, hd2])
  rw [e1, e2, e3, hd3, chunksOfFuel_nil]
  simp only [List.map_cons, List.map_nil, List.length_take, h, hd1, hd2]
  decide

theorem countSplit (slots : List Json) :
    countNonNull slots + countNull slots = slots.length := by
  induction slots with
  | nil => rfl
  | cons s rest ih =>
    simp only [countNonNull, countNull, List.filter_cons] at ih ⊢
    cases hs : s.isNull <;> simp [hs] <;> omega

theorem respSlots_eq (r : Json) (res : Json) (slots : List Json)
    (h1 : anki_request_addnotes r = .ok res) (h2 : asSlots res = .ok slots) :
    respSlots r = slots := by
  unfold respSlots
  rw [h1]
  cases res <;> simp_all [asSlots]

theorem pushGo_ok (oracle : List Note → Json) :
    ∀ (bs : List (List Note)) (c0 d0 c d : Nat) (tr : List (List Note)),
      push_notes_go oracle c0 d0 bs = (tr, .ok (c, d)) →
      tr = bs
      ∧ c = c0 + (bs.map fun b => countNonNull (respSlots (oracle b))).sum
      ∧ d = d0 + (bs.map fun b => countNull (respSlots (oracle b))).sum := by
  intro bs
  induction bs with
  | nil =>
    intro c0 d0 c d tr h
    simp only [push_notes_go, Prod.mk.injEq, Except.ok.injEq] at h
    obtain ⟨h1, h2, h3⟩ := h
    subst h1
    subst h2
    subst h3
    simp
  | cons b rest ih =>
    intro c0 d0 c d tr h
    cases h1 : anki_request_addnotes (oracle b) with
    | error e => simp [push_notes_go, h1, Prod.ext_iff] at h
    | ok res =>
      cases h2 : asSlots res with
      | error e => simp [push_notes_go, h1, h2, Prod.ext_iff] at h
      | ok slots =>
        rcases hgo : push_notes_go oracle (c0 + countNonNull slots)
          (d0 + countNull slots) rest with ⟨tr2, out⟩
        simp only [push_notes_go, h1, h2, hgo, Prod.mk.injEq] at h
        obtain ⟨htr, hout⟩ := h
        subst htr
        rw [hout] at hgo
        obtain ⟨htr2, hc, hd⟩ := ih (c0 + countNonNull slots) (d0 + countNull slots)
          c d tr2 hgo
        subst htr2
        have hr : respSlots (oracle b) = slots := respSlots_eq _ _ _ h1 h2
        refine ⟨rfl, ?_, ?_⟩ <;>
          simp only [List.map_cons, List.sum_cons, hr, hc, hd] <;> omega

/-- C2: on a successful push, the batches submitted are exactly the
consecutive 10-note slices of the input (all of size 10 except a possibly
smaller non-empty final batch; 25 notes give sizes 10, 10, 5), one
`addNotes` call is made per batch, the created count is the number of
non-null result slots and the duplicate count the number of null slots, so
created + duplicates equals the total number of result slots across all
batches — and equals the number of notes when the server returns one slot
per submitted note. -/
theorem C2_batching (oracle : List Note → Json) (notes : List Note)
    (tr : List (List Note)) (c d : Nat)
    (h : push_notes oracle notes = (tr, .ok (c, d))) :
    tr = chunksOf 10 notes
    ∧ tr.flatten = notes
    ∧ (∀ b ∈ tr, 0 < b.length ∧ b.length ≤ 10)
    ∧ (∀ b ∈ tr.dropLast, b.length = 10)
    ∧ (notes.length = 25 → tr.map List.length = [10, 10, 5])
    ∧ c = (tr.map fun b => countNonNull (respSlots (oracle b))).sum
    ∧ d = (tr.map fun b => countNull (respSlots (oracle b))).sum
    ∧ c + d = (tr.map fun b => (respSlots (oracle b)).length).sum
    ∧ ((∀ b ∈ tr, (respSlots (oracle b)).length = b.length) → c + d = notes.length) := by
  obtain ⟨htr, hc, hd⟩ := pushGo_ok oracle (chunksOf BATCH_SIZE notes) 0 0 c d tr h
  have hbs : chunksOf BATCH_SIZE notes = chunksOf 10 notes := rfl
  rw [hbs] at htr hc hd
  subst htr
  have hcd : c + d = ((chunksOf 10 notes).map fun b => (respSlots (oracle b)).length).sum := by
    have hsum : ∀ L : List (List Note),
        (L.map fun b => countNonNull (respSlots (oracle b))).sum
          + (L.map fun b => countNull (respSlots (oracle b))).sum
          = (L.map fun b => (respSlots (oracle b)).length).sum := by
      intro L
      induction L with
      | nil => rfl
      | cons x rest ih =>
        have hx := countSplit (respSlots (oracle x))
        simp only [List.map_cons, List.sum_cons]
        omega
    have hs := hsum (chunksOf 10 notes)
    omega
  refine ⟨rfl, chunksOfFuel_flatten 10 notes.length notes (le_refl _),
    chunksOfFuel_mem notes.length notes (le_refl _),
    chunksOfFuel_dropLast notes.length notes (le_refl _),
    fun h25 => chunks25 notes h25, by omega, by omega, hcd, ?_⟩
  intro hslots
  have hmap : (chunksOf 10 notes).map (fun b => (respSlots (oracle b)).length)
      = (chunksOf 10 notes).map List.length :=
    List.map_congr_left hslots
  rw [hcd, hmap, ← List.length_flatten,
    show chunksOf 10 notes = chunksOfFuel 10 notes.length notes from rfl,
    chunksOfFuel_flatten 10 notes.length notes (le_refl _)]

/-- C2 witness: pushing 25 concrete notes against a server that reports
every note as a duplicate issues batches of sizes 10, 10, 5 and counts
0 created plus 25 duplicates. -/
theorem C2_batching_witness :
    push_notes oracleAllDup notes25 = (chunksOf 10 notes25, .ok (0, 25))
    ∧ (chunksOf 10 notes25).map List.length = [10, 10, 5] := by
  have h : push_notes oracleAllDup notes25 = (chunksOf 10 notes25, .ok (0, 25)) := by rfl
  exact ⟨h, (C2_batching oracleAllDup notes25 (chunksOf 10 notes25) 0 25 h).2.2.2.2.1 rfl⟩
